import Mathlib

/-!
Verification development for `BUSCO_phylogenomics.py` (giovagalassi8-ctrl/Scripts).

`src/BUSCO_phylogenomics.py` stages the opening portion of the pipeline
script: the imports (lines 11-20), the definition of `main` with its
`argparse` argument declarations (lines 23-39), three `print_message` calls
(lines 41-43), and the two directory-existence checks with `sys.exit()`
(lines 49-57).  The rest of the module is repository code not included in
the staged file: the `print_message` helper (for which the fragment already
imports `strftime` and `gmtime`) and the later pipeline stages (BUSCO
result scanner, marker selector, sequence regrouper, supermatrix
concatenation).  Those parts are modelled from the specification's words
below, each such definition marked `Modelled from the spec`.
-/

/-- A filesystem as the `os.path.isdir` checks of the script observe it:
the set of existing directory paths, plus the working directory used by
`os.path.abspath`. -/
structure FS where
  dirs : List String
  cwd : String
deriving DecidableEq, Repr

/-- `os.path.isdir(p)`: whether `p` names an existing directory. -/
def FS.isdir (fs : FS) (p : String) : Bool :=
  fs.dirs.contains p

/-- Whether a path is absolute (starts with a slash). -/
def isAbsolute (p : String) : Bool :=
  match p.data with
  | [] => false
  | c :: _ => c = '/'

/-- `os.path.abspath(p)`: an already-absolute path is returned as is, a
relative one is resolved against the current working directory. -/
def abspath (cwd p : String) : String :=
  if isAbsolute p then p else cwd ++ "/" ++ p

/-- The parsed argument namespace produced by `parser.parse_args()`
(lines 25-39 of the script).  Python floats are modelled as exact
rationals. -/
structure Args where
  input : String
  output : String
  threads : Int
  supermatrix_only : Bool
  gene_trees_only : Bool
  nt : Bool
  psc : ℚ
  trimal_strategy : String
  missing_character : String
  gene_tree_program : String
  busco_version_3 : Bool
deriving DecidableEq, Repr

/-- Parser state while scanning the command line: the three required
arguments start out unset, every optional argument starts at the default
given in its `add_argument` call. -/
structure ParseState where
  input : Option String
  output : Option String
  threads : Option Int
  supermatrix_only : Bool
  gene_trees_only : Bool
  nt : Bool
  psc : ℚ
  trimal_strategy : String
  missing_character : String
  gene_tree_program : String
  busco_version_3 : Bool
deriving DecidableEq, Repr

/-- Initial parser state: the defaults of lines 25-37
(`psc=100.0`, `trimal_strategy="automated1"`, `missing_character="?"`,
`gene_tree_program="fasttree"`, all switches off). -/
def initState : ParseState :=
  { input := none
    output := none
    threads := none
    supermatrix_only := false
    gene_trees_only := false
    nt := false
    psc := 100
    trimal_strategy := "automated1"
    missing_character := "?"
    gene_tree_program := "fasttree"
    busco_version_3 := false }

/-- Digits of a decimal numeral to a natural number; `none` on the empty
string or a non-digit. -/
def digitsToNat (l : List Char) : Option Nat :=
  if l = [] then none
  else if l.all Char.isDigit then
    some (l.foldl (fun n c => 10 * n + (c.toNat - 48)) 0)
  else none

/-- Python `int(s)` as used by `type=int` on `-t` / `--threads`: an optional
sign followed by decimal digits. -/
def parsePyInt (s : String) : Option Int :=
  match s.data with
  | '-' :: rest => (digitsToNat rest).map (fun n => -(n : Int))
  | '+' :: rest => (digitsToNat rest).map (fun n => (n : Int))
  | l => (digitsToNat l).map (fun n => (n : Int))

/-- Split a character list at every dot. -/
def splitDot : List Char → List (List Char)
  | [] => [[]]
  | c :: rest =>
    if c = '.' then [] :: splitDot rest
    else
      match splitDot rest with
      | [] => [[c]]
      | h :: t => (c :: h) :: t

/-- Python `float(s)` as used by `type=float` on `-psc`, modelled exactly
over the rationals for plain decimal numerals (optional sign, digits,
optional fractional part). -/
def parsePyFloat (s : String) : Option ℚ :=
  let signed : ℚ × List Char :=
    match s.data with
    | '-' :: rest => (-1, rest)
    | '+' :: rest => (1, rest)
    | l => (1, l)
  match splitDot signed.2 with
  | [ip] =>
      (digitsToNat ip).map (fun n => signed.1 * n)
  | [ip, fp] =>
      if ip = [] ∧ fp = [] then none
      else
        let ipn := if ip = [] then some 0 else digitsToNat ip
        let fpn := if fp = [] then some 0 else digitsToNat fp
        match ipn, fpn with
        | some a, some b =>
            some (signed.1 * ((a : ℚ) + (b : ℚ) / ((10 : ℚ) ^ fp.length)))
        | _, _ => none
  | _ => none

/-- One pass over the command-line tokens, mirroring the option table built
by the `add_argument` calls on lines 25-37: `store_true` switches set their
flag, valued options consume the following token (converted by their type),
an unrecognized token is an argparse error (`none`). -/
def parseTokens : List String → ParseState → Option ParseState
  | [], st => some st
  | tok :: rest, st =>
    if tok = "-i" ∨ tok = "--input" then
      match rest with
      | [] => none
      | v :: rest2 => parseTokens rest2 { st with input := some v }
    else if tok = "-o" ∨ tok = "--output" then
      match rest with
      | [] => none
      | v :: rest2 => parseTokens rest2 { st with output := some v }
    else if tok = "-t" ∨ tok = "--threads" then
      match rest with
      | [] => none
      | v :: rest2 =>
        match parsePyInt v with
        | none => none
        | some n => parseTokens rest2 { st with threads := some n }
    else if tok = "--supermatrix_only" then
      parseTokens rest { st with supermatrix_only := true }
    else if tok = "--gene_trees_only" then
      parseTokens rest { st with gene_trees_only := true }
    else if tok = "--nt" then
      parseTokens rest { st with nt := true }
    else if tok = "-psc" ∨ tok = "--percent_single_copy" then
      match rest with
      | [] => none
      | v :: rest2 =>
        match parsePyFloat v with
        | none => none
        | some q => parseTokens rest2 { st with psc := q }
    else if tok = "--trimal_strategy" then
      match rest with
      | [] => none
      | v :: rest2 => parseTokens rest2 { st with trimal_strategy := v }
    else if tok = "--missing_character" then
      match rest with
      | [] => none
      | v :: rest2 => parseTokens rest2 { st with missing_character := v }
    else if tok = "--gene_tree_program" then
      match rest with
      | [] => none
      | v :: rest2 => parseTokens rest2 { st with gene_tree_program := v }
    else if tok = "--busco_version_3" then
      parseTokens rest { st with busco_version_3 := true }
    else none

/-- `parser.parse_args(argv)` (line 39): scan the tokens, then fail unless
each `required=True` argument (`-i` / `--input`, `-o` / `--output`, `-t` / `--threads`)
was supplied. -/
def parse_args (argv : List String) : Option Args :=
  match parseTokens argv initState with
  | none => none
  | some st =>
    match st.input, st.output, st.threads with
    | some i, some o, some t =>
        some { input := i
               output := o
               threads := t
               supermatrix_only := st.supermatrix_only
               gene_trees_only := st.gene_trees_only
               nt := st.nt
               psc := st.psc
               trimal_strategy := st.trimal_strategy
               missing_character := st.missing_character
               gene_tree_program := st.gene_tree_program
               busco_version_3 := st.busco_version_3 }
    | _, _, _ => none

/-- Modelled from the spec: the `print_message` helper, repository code
defined below the staged fragment of the module (the fragment imports
`strftime` and `gmtime` for it): it prints its arguments as one line
prefixed with a timestamp and returns.  The model yields the printed
line's components; the timestamp prefix and the rendering of non-string
payloads are abstracted away. -/
def print_message (parts : List String) : List String :=
  parts

/-- How an execution of the visible part of `main` (after `parse_args`)
ends: a `sys.exit(code)` — Python's argument-less `sys.exit()` exits with
status 0 — or falling through past line 57 into the rest of the pipeline
(scanning, regrouping, external tools). -/
inductive RunResult where
  | exited (code : Nat)
  | proceeded (input_directory working_directory : String) (threads : Int)
deriving DecidableEq, Repr

/-- Process exit status: `sys.exit(c)` terminates the process with status
`c`; a run that proceeded past the fragment has not terminated there. -/
def exitCode : RunResult → Option Nat
  | RunResult.exited c => some c
  | RunResult.proceeded _ _ _ => none

/-- What a run of the fragment leaves behind: how it ended, the filesystem
(returned unchanged: lines 22-57 perform no write, create or delete), and
the lines printed through `print_message`, in order. -/
structure RunTrace where
  result : RunResult
  fs : FS
  printed : List (List String)
deriving DecidableEq, Repr

/-- Lines 41-57 of `main`, after argument parsing.  The three startup
messages print (lines 41-43; the `sys.argv` and `vars(args)` payloads are
abstracted), the paths are made absolute (lines 45-46), then the input
directory is checked (lines 50-52: print the timestamped diagnostic naming
it, then `sys.exit()`, when it is missing) and then the output directory
(lines 55-57: print the diagnostic, then `sys.exit()`, when it already
exists); otherwise the run proceeds into the rest of the pipeline. -/
def mainAfterParse (fs : FS) (args : Args) : RunTrace :=
  let startup := [print_message ["Starting BUSCO Phylogenomics Pipeline"],
                  print_message ["User provided arguments:"],
                  print_message ["Parsed arguments:"]]
  let input_directory := abspath fs.cwd args.input
  let working_directory := abspath fs.cwd args.output
  if ¬ fs.isdir input_directory then
    { result := RunResult.exited 0
      fs := fs
      printed := startup ++
        [print_message ["ERROR. Input BUSCO directory", input_directory, "not found"]] }
  else if fs.isdir working_directory then
    { result := RunResult.exited 0
      fs := fs
      printed := startup ++
        [print_message ["ERROR. Output directory", working_directory, "already exists"]] }
  else
    { result := RunResult.proceeded input_directory working_directory args.threads
      fs := fs
      printed := startup }

/-- The whole visible `main`: parse the command line (argparse exits with
status 2 on a parse error, its usage text abstracted away), then run
lines 41-57. -/
def mainRun (fs : FS) (argv : List String) : RunTrace :=
  match parse_args argv with
  | none => { result := RunResult.exited 2, fs := fs, printed := [] }
  | some args => mainAfterParse fs args

/-- Modelled from the spec: in how many of the per-species marker sets the
marker `m` is single-copy complete ("occurrence count across species"). -/
def presenceCount (sets : List (List String)) (m : String) : Nat :=
  (sets.filter (fun s => decide (m ∈ s))).length

/-- Modelled from the spec: the presence-fraction of a marker, its
occurrence count across species divided by the total species count. -/
def presenceFraction (sets : List (List String)) (m : String) : ℚ :=
  (presenceCount sets m : ℚ) / (sets.length : ℚ)

/-- Modelled from the spec: the markers the scanner observed at all, the
union (without duplicates, in first-appearance order) of the per-species
single-copy complete marker sets; the occupancy record maps exactly these
markers to species sets. -/
def observedMarkers (sets : List (List String)) : List String :=
  sets.flatten.dedup

/-- Modelled from the spec: the marker selector.  From the per-species
marker sets and the percentage threshold `t` (the `-psc` value), retain the
observed markers whose presence-fraction is at least `t / 100`. -/
def selectedMarkers (sets : List (List String)) (t : ℚ) : List String :=
  (observedMarkers sets).filter (fun m => decide (t / 100 ≤ presenceFraction sets m))

/-- Modelled from the spec: the scan-then-select stage of a run.  An input
directory's contents, for this stage, are the species (directory name paired
with the set of single-copy complete marker IDs found in it); the run scans
them in order and applies the marker selector. -/
def scanAndSelect (contents : List (String × List String)) (t : ℚ) : List String :=
  selectedMarkers (contents.map Prod.snd) t

/-- Modelled from the spec: a trimmed per-marker alignment as the external
trimmer returns it, a list of (species name, aligned sequence) records. -/
structure TrimmedAlignment where
  seqs : List (String × List Char)
deriving DecidableEq, Repr

/-- Modelled from the spec: the column width of a trimmed alignment, the
common length of its rows (read off the first row). -/
def alnWidth (a : TrimmedAlignment) : Nat :=
  match a.seqs with
  | [] => 0
  | p :: _ => p.2.length

/-- Modelled from the spec: the sequence a trimmed alignment holds for a
species, when the species is present in it. -/
def lookupSeq (a : TrimmedAlignment) (sp : String) : Option (List Char) :=
  (a.seqs.find? (fun p => p.1 == sp)).map Prod.snd

/-- Modelled from the spec: the block a marker contributes to a species row
of the supermatrix: the species' trimmed aligned sequence when present,
otherwise the missing character repeated to the marker's trimmed alignment
width. -/
def markerBlock (mc : Char) (a : TrimmedAlignment) (sp : String) : List Char :=
  match lookupSeq a sp with
  | some s => s
  | none => List.replicate (alnWidth a) mc

/-- Modelled from the spec: one species row of the supermatrix, the
concatenation of that species' blocks over all retained markers in the fixed
order of the alignment list. -/
def speciesRow (mc : Char) (alns : List TrimmedAlignment) (sp : String) : List Char :=
  (alns.map (fun a => markerBlock mc a sp)).flatten

/-- Modelled from the spec: the supermatrix, one row per species, every row
built from the same alignment list in the same order. -/
def supermatrix (mc : Char) (alns : List TrimmedAlignment) (species : List String) :
    List (String × List Char) :=
  species.map (fun sp => (sp, speciesRow mc alns sp))

/-- C1: on every invocation whose output directory path already exists as
a directory, the run terminates at the directory checks via `sys.exit()` —
when the input directory also exists, immediately after the output
existence check of lines 55-57, with that check's diagnostic as the last
printed line — and the filesystem is returned unchanged: no file anywhere
is created, modified or deleted. -/
theorem busco_c1_output_exists_stops (fs : FS) (args : Args)
    (hout : fs.isdir (abspath fs.cwd args.output) = true) :
    (mainAfterParse fs args).result = RunResult.exited 0 ∧
    (mainAfterParse fs args).fs = fs ∧
    (fs.isdir (abspath fs.cwd args.input) = true →
      (mainAfterParse fs args).printed.getLast? =
        some (print_message
          ["ERROR. Output directory", abspath fs.cwd args.output, "already exists"])) := by
  by_cases hin : fs.isdir (abspath fs.cwd args.input) = true
  · refine ⟨?_, ?_, fun _ => ?_⟩ <;> simp [mainAfterParse, hin, hout, print_message]
  · exact ⟨by simp [mainAfterParse, hin], by simp [mainAfterParse, hin],
           fun hc => absurd hc hin⟩

/-- C1 (witness): a concrete invocation whose input and output directories
both exist stops with exit status 0, an untouched filesystem, and the
output-directory diagnostic as the last printed line. -/
theorem busco_c1_output_exists_stops_witness :
    (mainAfterParse (FS.mk ["/data/in", "/data/out"] "/data")
        (Args.mk "/data/in" "/data/out" 4 false false false 100 "automated1" "?" "fasttree" false)).result
      = RunResult.exited 0 ∧
    (mainAfterParse (FS.mk ["/data/in", "/data/out"] "/data")
        (Args.mk "/data/in" "/data/out" 4 false false false 100 "automated1" "?" "fasttree" false)).fs
      = FS.mk ["/data/in", "/data/out"] "/data" ∧
    ((FS.mk ["/data/in", "/data/out"] "/data").isdir
        (abspath "/data" "/data/in") = true →
      (mainAfterParse (FS.mk ["/data/in", "/data/out"] "/data")
          (Args.mk "/data/in" "/data/out" 4 false false false 100 "automated1" "?" "fasttree" false)).printed.getLast? =
        some (print_message
          ["ERROR. Output directory", abspath "/data" "/data/out", "already exists"])) :=
  busco_c1_output_exists_stops (FS.mk ["/data/in", "/data/out"] "/data")
    (Args.mk "/data/in" "/data/out" 4 false false false 100 "automated1" "?" "fasttree" false)
    (by decide)

/-- C2: on every invocation whose input directory does not exist, the run
prints the timestamped diagnostic naming that directory, terminates via
`sys.exit()` at the input check of lines 50-52 with the filesystem
unchanged, and never proceeds into scanning, regrouping or external-tool
work. -/
theorem busco_c2_input_missing_reports (fs : FS) (args : Args)
    (hin : fs.isdir (abspath fs.cwd args.input) = false) :
    (mainAfterParse fs args).result = RunResult.exited 0 ∧
    (mainAfterParse fs args).fs = fs ∧
    print_message ["ERROR. Input BUSCO directory", abspath fs.cwd args.input, "not found"]
      ∈ (mainAfterParse fs args).printed := by
  refine ⟨?_, ?_, ?_⟩ <;> simp [mainAfterParse, hin, print_message]

/-- C2 (witness): a concrete invocation with a missing input directory
exits with status 0, leaves the filesystem untouched, and prints the
diagnostic naming the directory. -/
theorem busco_c2_input_missing_reports_witness :
    (mainAfterParse (FS.mk ["/data"] "/data")
        (Args.mk "/data/in" "/data/out" 4 false false false 100 "automated1" "?" "fasttree" false)).result
      = RunResult.exited 0 ∧
    (mainAfterParse (FS.mk ["/data"] "/data")
        (Args.mk "/data/in" "/data/out" 4 false false false 100 "automated1" "?" "fasttree" false)).fs
      = FS.mk ["/data"] "/data" ∧
    print_message ["ERROR. Input BUSCO directory", abspath "/data" "/data/in", "not found"]
      ∈ (mainAfterParse (FS.mk ["/data"] "/data")
          (Args.mk "/data/in" "/data/out" 4 false false false 100 "automated1" "?" "fasttree" false)).printed :=
  busco_c2_input_missing_reports (FS.mk ["/data"] "/data")
    (Args.mk "/data/in" "/data/out" 4 false false false 100 "automated1" "?" "fasttree" false)
    (by decide)

/-- C9 (counterexample): a concrete run of `main` past argument parsing
does execute the startup messages and the input-directory check — both
lines are printed and the run terminates through the check's `sys.exit()`,
not through a `NameError`: `print_message` is repository code defined below
the staged fragment, modelled from the spec. -/
theorem busco_c9_checks_execute_cex :
    print_message ["Starting BUSCO Phylogenomics Pipeline"]
      ∈ (mainAfterParse (FS.mk [] "/w")
          (Args.mk "/missing" "/out" 2 false false false 100 "automated1" "?" "fasttree" false)).printed ∧
    print_message ["ERROR. Input BUSCO directory", "/missing", "not found"]
      ∈ (mainAfterParse (FS.mk [] "/w")
          (Args.mk "/missing" "/out" 2 false false false 100 "automated1" "?" "fasttree" false)).printed ∧
    (mainAfterParse (FS.mk [] "/w")
        (Args.mk "/missing" "/out" 2 false false false 100 "automated1" "?" "fasttree" false)).result
      = RunResult.exited 0 := by
  decide

/-- C9 (amended): the staged fragment itself binds no `print_message`, but
the helper is repository code defined below the fragment (modelled from
the spec), so no `NameError` occurs: on every run of `main` past argument
parsing the startup message prints, and the directory checks execute and
alone decide the outcome — the run exits (status 0) exactly when the input
directory is missing or the output directory already exists, and otherwise
proceeds into the pipeline. -/
theorem busco_c9_print_message_defined (fs : FS) (args : Args) :
    print_message ["Starting BUSCO Phylogenomics Pipeline"]
      ∈ (mainAfterParse fs args).printed ∧
    ((mainAfterParse fs args).result = RunResult.exited 0 ↔
      (fs.isdir (abspath fs.cwd args.input) = false ∨
       fs.isdir (abspath fs.cwd args.output) = true)) := by
  by_cases hin : fs.isdir (abspath fs.cwd args.input) = true <;>
    by_cases hout : fs.isdir (abspath fs.cwd args.output) = true <;>
      constructor <;> simp [mainAfterParse, hin, hout, print_message]

/-- C10: on both error paths — input directory missing, output directory
already existing — the run terminates through the argument-less
`sys.exit()` of line 52 or line 57, so the process exit status is 0
(success), not a non-zero failure code. -/
theorem busco_c10_exit_status_zero (fs : FS) (args : Args)
    (h : fs.isdir (abspath fs.cwd args.input) = false ∨
         fs.isdir (abspath fs.cwd args.output) = true) :
    (mainAfterParse fs args).result = RunResult.exited 0 ∧
    exitCode (mainAfterParse fs args).result = some 0 := by
  have hres : (mainAfterParse fs args).result = RunResult.exited 0 := by
    rcases h with h | h
    · simp [mainAfterParse, h]
    · by_cases hin : fs.isdir (abspath fs.cwd args.input) = true
      · simp [mainAfterParse, hin, h]
      · simp [mainAfterParse, hin]
  refine ⟨hres, ?_⟩
  rw [hres]
  rfl

/-- C10 (witness): a concrete invocation whose input directory is missing
terminates with process exit status 0. -/
theorem busco_c10_exit_status_zero_witness :
    (mainAfterParse (FS.mk [] "/w")
        (Args.mk "/absent" "/out" 1 false false false 100 "automated1" "?" "fasttree" false)).result
      = RunResult.exited 0 ∧
    exitCode (mainAfterParse (FS.mk [] "/w")
        (Args.mk "/absent" "/out" 1 false false false 100 "automated1" "?" "fasttree" false)).result
      = some 0 :=
  busco_c10_exit_status_zero (FS.mk [] "/w")
    (Args.mk "/absent" "/out" 1 false false false 100 "automated1" "?" "fasttree" false)
    (Or.inl (by decide))

/-- C5 (counterexample): supplying both `--supermatrix_only` and
`--gene_trees_only` is not rejected by the parser: with the required
arguments present, `parse_args` succeeds and returns a namespace with both
switches set to true. -/
theorem busco_c5_both_flags_accepted_cex :
    parse_args
        ["-i", "in_dir", "-o", "out_dir", "-t", "4",
         "--supermatrix_only", "--gene_trees_only"]
      = some (Args.mk "in_dir" "out_dir" 4 true true false 100 "automated1" "?" "fasttree" false) :=
  rfl

/-- C8: the scan-then-select stage of a run is a pure function of the input
directory contents and the threshold: two runs over identical contents with
the same threshold produce the identical selected-marker set. -/
theorem busco_c8_selection_deterministic
    (c1 c2 : List (String × List String)) (t1 t2 : ℚ)
    (hc : c1 = c2) (ht : t1 = t2) :
    scanAndSelect c1 t1 = scanAndSelect c2 t2 := by
  rw [hc, ht]

/-- C8 (witness): two runs over a concrete identical input agree. -/
theorem busco_c8_selection_deterministic_witness :
    scanAndSelect [("sp1", ["X", "Y"]), ("sp2", ["X"])] 100
      = scanAndSelect [("sp1", ["X", "Y"]), ("sp2", ["X"])] 100 :=
  busco_c8_selection_deterministic
    [("sp1", ["X", "Y"]), ("sp2", ["X"])] [("sp1", ["X", "Y"]), ("sp2", ["X"])]
    100 100 rfl rfl

/-- Helper: a command line containing neither `-i` nor `--input` leaves the
parser state's `input` field unchanged. -/
theorem parseTokens_input_stable (argv : List String) (st st2 : ParseState)
    (h : parseTokens argv st = some st2)
    (h1 : "-i" ∉ argv) (h2 : "--input" ∉ argv) : st2.input = st.input := by
  induction argv, st using parseTokens.induct generalizing st2
  case case1 st =>
    rw [parseTokens.eq_def] at h
    simp only [Option.some.injEq] at h
    rw [← h]
  case case2 tok st htok =>
    rcases htok with rfl | rfl
    · exact absurd (List.mem_cons_self _ _) h1
    · exact absurd (List.mem_cons_self _ _) h2
  case case3 tok st htok v rest2 ih =>
    rcases htok with rfl | rfl
    · exact absurd (List.mem_cons_self _ _) h1
    · exact absurd (List.mem_cons_self _ _) h2
  case case4 tok st hni htok =>
    rcases htok with rfl | rfl <;>
      (rw [parseTokens.eq_def] at h; simp at h)
  case case5 tok st hni htok v rest2 ih =>
    rcases htok with rfl | rfl <;>
      (rw [parseTokens.eq_def] at h; simp at h;
       exact (ih st2 h
        (fun hm => h1 (List.mem_cons_of_mem _ (List.mem_cons_of_mem _ hm)))
        (fun hm => h2 (List.mem_cons_of_mem _ (List.mem_cons_of_mem _ hm)))).trans rfl)
  case case6 tok st hni hno htok =>
    rcases htok with rfl | rfl <;>
      (rw [parseTokens.eq_def] at h; simp at h)
  case case7 tok st hni hno htok v rest2 hv =>
    rcases htok with rfl | rfl <;>
      (rw [parseTokens.eq_def] at h; simp [hv] at h)
  case case8 tok st hni hno htok v rest2 n hv ih =>
    rcases htok with rfl | rfl <;>
      (rw [parseTokens.eq_def] at h; simp [hv] at h;
       exact (ih st2 h
        (fun hm => h1 (List.mem_cons_of_mem _ (List.mem_cons_of_mem _ hm)))
        (fun hm => h2 (List.mem_cons_of_mem _ (List.mem_cons_of_mem _ hm)))).trans rfl)
  case case9 rest st c1 c2 c3 ih =>
    rw [parseTokens.eq_def] at h; simp at h
    exact (ih st2 h
      (fun hm => h1 (List.mem_cons_of_mem _ hm))
      (fun hm => h2 (List.mem_cons_of_mem _ hm))).trans rfl
  case case10 rest st c1 c2 c3 c4 ih =>
    rw [parseTokens.eq_def] at h; simp at h
    exact (ih st2 h
      (fun hm => h1 (List.mem_cons_of_mem _ hm))
      (fun hm => h2 (List.mem_cons_of_mem _ hm))).trans rfl
  case case11 rest st c1 c2 c3 c4 c5 ih =>
    rw [parseTokens.eq_def] at h; simp at h
    exact (ih st2 h
      (fun hm => h1 (List.mem_cons_of_mem _ hm))
      (fun hm => h2 (List.mem_cons_of_mem _ hm))).trans rfl
  case case12 tok st hni hno hnt c4 c5 c6 htok =>
    rcases htok with rfl | rfl <;>
      (rw [parseTokens.eq_def] at h; simp at h)
  case case13 tok st hni hno hnt c4 c5 c6 htok v rest2 hv =>
    rcases htok with rfl | rfl <;>
      (rw [parseTokens.eq_def] at h; simp [hv] at h)
  case case14 tok st hni hno hnt c4 c5 c6 htok v rest2 q hv ih =>
    rcases htok with rfl | rfl <;>
      (rw [parseTokens.eq_def] at h; simp [hv] at h;
       exact (ih st2 h
        (fun hm => h1 (List.mem_cons_of_mem _ (List.mem_cons_of_mem _ hm)))
        (fun hm => h2 (List.mem_cons_of_mem _ (List.mem_cons_of_mem _ hm)))).trans rfl)
  case case15 st c1 c2 c3 c4 c5 c6 c7 =>
    rw [parseTokens.eq_def] at h; simp at h
  case case16 rest2 st v c1 c2 c3 c4 c5 c6 c7 ih =>
    rw [parseTokens.eq_def] at h; simp at h
    exact (ih st2 h
      (fun hm => h1 (List.mem_cons_of_mem _ (List.mem_cons_of_mem _ hm)))
      (fun hm => h2 (List.mem_cons_of_mem _ (List.mem_cons_of_mem _ hm)))).trans rfl
  case case17 st c1 c2 c3 c4 c5 c6 c7 c8 =>
    rw [parseTokens.eq_def] at h; simp at h
  case case18 rest2 st v c1 c2 c3 c4 c5 c6 c7 c8 ih =>
    rw [parseTokens.eq_def] at h; simp at h
    exact (ih st2 h
      (fun hm => h1 (List.mem_cons_of_mem _ (List.mem_cons_of_mem _ hm)))
      (fun hm => h2 (List.mem_cons_of_mem _ (List.mem_cons_of_mem _ hm)))).trans rfl
  case case19 st c1 c2 c3 c4 c5 c6 c7 c8 c9 =>
    rw [parseTokens.eq_def] at h; simp at h
  case case20 rest2 st v c1 c2 c3 c4 c5 c6 c7 c8 c9 ih =>
    rw [parseTokens.eq_def] at h; simp at h
    exact (ih st2 h
      (fun hm => h1 (List.mem_cons_of_mem _ (List.mem_cons_of_mem _ hm)))
      (fun hm => h2 (List.mem_cons_of_mem _ (List.mem_cons_of_mem _ hm)))).trans rfl
  case case21 rest st c1 c2 c3 c4 c5 c6 c7 c8 c9 c10 ih =>
    rw [parseTokens.eq_def] at h; simp at h
    exact (ih st2 h
      (fun hm => h1 (List.mem_cons_of_mem _ hm))
      (fun hm => h2 (List.mem_cons_of_mem _ hm))).trans rfl
  case case22 =>
    rw [parseTokens.eq_def] at h
    simp_all

/-- Helper: a command line containing neither `-o` nor `--output` leaves the
parser state's `output` field unchanged. -/
theorem parseTokens_output_stable (argv : List String) (st st2 : ParseState)
    (h : parseTokens argv st = some st2)
    (h1 : "-o" ∉ argv) (h2 : "--output" ∉ argv) : st2.output = st.output := by
  induction argv, st using parseTokens.induct generalizing st2
  case case1 st =>
    rw [parseTokens.eq_def] at h
    simp only [Option.some.injEq] at h
    rw [← h]
  case case2 tok st htok =>
    rcases htok with rfl | rfl <;>
      (rw [parseTokens.eq_def] at h; simp at h)
  case case3 tok st htok v rest2 ih =>
    rcases htok with rfl | rfl <;>
      (rw [parseTokens.eq_def] at h; simp at h;
       exact (ih st2 h
        (fun hm => h1 (List.mem_cons_of_mem _ (List.mem_cons_of_mem _ hm)))
        (fun hm => h2 (List.mem_cons_of_mem _ (List.mem_cons_of_mem _ hm)))).trans rfl)
  case case4 tok st hni htok =>
    rcases htok with rfl | rfl
    · exact absurd (List.mem_cons_self _ _) h1
    · exact absurd (List.mem_cons_self _ _) h2
  case case5 tok st hni htok v rest2 ih =>
    rcases htok with rfl | rfl
    · exact absurd (List.mem_cons_self _ _) h1
    · exact absurd (List.mem_cons_self _ _) h2
  case case6 tok st hni hno htok =>
    rcases htok with rfl | rfl <;>
      (rw [parseTokens.eq_def] at h; simp at h)
  case case7 tok st hni hno htok v rest2 hv =>
    rcases htok with rfl | rfl <;>
      (rw [parseTokens.eq_def] at h; simp [hv] at h)
  case case8 tok st hni hno htok v rest2 n hv ih =>
    rcases htok with rfl | rfl <;>
      (rw [parseTokens.eq_def] at h; simp [hv] at h;
       exact (ih st2 h
        (fun hm => h1 (List.mem_cons_of_mem _ (List.mem_cons_of_mem _ hm)))
        (fun hm => h2 (List.mem_cons_of_mem _ (List.mem_cons_of_mem _ hm)))).trans rfl)
  case case9 rest st c1 c2 c3 ih =>
    rw [parseTokens.eq_def] at h; simp at h
    exact (ih st2 h
      (fun hm => h1 (List.mem_cons_of_mem _ hm))
      (fun hm => h2 (List.mem_cons_of_mem _ hm))).trans rfl
  case case10 rest st c1 c2 c3 c4 ih =>
    rw [parseTokens.eq_def] at h; simp at h
    exact (ih st2 h
      (fun hm => h1 (List.mem_cons_of_mem _ hm))
      (fun hm => h2 (List.mem_cons_of_mem _ hm))).trans rfl
  case case11 rest st c1 c2 c3 c4 c5 ih =>
    rw [parseTokens.eq_def] at h; simp at h
    exact (ih st2 h
      (fun hm => h1 (List.mem_cons_of_mem _ hm))
      (fun hm => h2 (List.mem_cons_of_mem _ hm))).trans rfl
  case case12 tok st hni hno hnt c4 c5 c6 htok =>
    rcases htok with rfl | rfl <;>
      (rw [parseTokens.eq_def] at h; simp at h)
  case case13 tok st hni hno hnt c4 c5 c6 htok v rest2 hv =>
    rcases htok with rfl | rfl <;>
      (rw [parseTokens.eq_def] at h; simp [hv] at h)
  case case14 tok st hni hno hnt c4 c5 c6 htok v rest2 q hv ih =>
    rcases htok with rfl | rfl <;>
      (rw [parseTokens.eq_def] at h; simp [hv] at h;
       exact (ih st2 h
        (fun hm => h1 (List.mem_cons_of_mem _ (List.mem_cons_of_mem _ hm)))
        (fun hm => h2 (List.mem_cons_of_mem _ (List.mem_cons_of_mem _ hm)))).trans rfl)
  case case15 st c1 c2 c3 c4 c5 c6 c7 =>
    rw [parseTokens.eq_def] at h; simp at h
  case case16 rest2 st v c1 c2 c3 c4 c5 c6 c7 ih =>
    rw [parseTokens.eq_def] at h; simp at h
    exact (ih st2 h
      (fun hm => h1 (List.mem_cons_of_mem _ (List.mem_cons_of_mem _ hm)))
      (fun hm => h2 (List.mem_cons_of_mem _ (List.mem_cons_of_mem _ hm)))).trans rfl
  case case17 st c1 c2 c3 c4 c5 c6 c7 c8 =>
    rw [parseTokens.eq_def] at h; simp at h
  case case18 rest2 st v c1 c2 c3 c4 c5 c6 c7 c8 ih =>
    rw [parseTokens.eq_def] at h; simp at h
    exact (ih st2 h
      (fun hm => h1 (List.mem_cons_of_mem _ (List.mem_cons_of_mem _ hm)))
      (fun hm => h2 (List.mem_cons_of_mem _ (List.mem_cons_of_mem _ hm)))).trans rfl
  case case19 st c1 c2 c3 c4 c5 c6 c7 c8 c9 =>
    rw [parseTokens.eq_def] at h; simp at h
  case case20 rest2 st v c1 c2 c3 c4 c5 c6 c7 c8 c9 ih =>
    rw [parseTokens.eq_def] at h; simp at h
    exact (ih st2 h
      (fun hm => h1 (List.mem_cons_of_mem _ (List.mem_cons_of_mem _ hm)))
      (fun hm => h2 (List.mem_cons_of_mem _ (List.mem_cons_of_mem _ hm)))).trans rfl
  case case21 rest st c1 c2 c3 c4 c5 c6 c7 c8 c9 c10 ih =>
    rw [parseTokens.eq_def] at h; simp at h
    exact (ih st2 h
      (fun hm => h1 (List.mem_cons_of_mem _ hm))
      (fun hm => h2 (List.mem_cons_of_mem _ hm))).trans rfl
  case case22 =>
    rw [parseTokens.eq_def] at h
    simp_all

/-- Helper: a command line containing neither `-t` nor `--threads` leaves the
parser state's `threads` field unchanged. -/
theorem parseTokens_threads_stable (argv : List String) (st st2 : ParseState)
    (h : parseTokens argv st = some st2)
    (h1 : "-t" ∉ argv) (h2 : "--threads" ∉ argv) : st2.threads = st.threads := by
  induction argv, st using parseTokens.induct generalizing st2
  case case1 st =>
    rw [parseTokens.eq_def] at h
    simp only [Option.some.injEq] at h
    rw [← h]
  case case2 tok st htok =>
    rcases htok with rfl | rfl <;>
      (rw [parseTokens.eq_def] at h; simp at h)
  case case3 tok st htok v rest2 ih =>
    rcases htok with rfl | rfl <;>
      (rw [parseTokens.eq_def] at h; simp at h;
       exact (ih st2 h
        (fun hm => h1 (List.mem_cons_of_mem _ (List.mem_cons_of_mem _ hm)))
        (fun hm => h2 (List.mem_cons_of_mem _ (List.mem_cons_of_mem _ hm)))).trans rfl)
  case case4 tok st hni htok =>
    rcases htok with rfl | rfl <;>
      (rw [parseTokens.eq_def] at h; simp at h)
  case case5 tok st hni htok v rest2 ih =>
    rcases htok with rfl | rfl <;>
      (rw [parseTokens.eq_def] at h; simp at h;
       exact (ih st2 h
        (fun hm => h1 (List.mem_cons_of_mem _ (List.mem_cons_of_mem _ hm)))
        (fun hm => h2 (List.mem_cons_of_mem _ (List.mem_cons_of_mem _ hm)))).trans rfl)
  case case6 tok st hni hno htok =>
    rcases htok with rfl | rfl
    · exact absurd (List.mem_cons_self _ _) h1
    · exact absurd (List.mem_cons_self _ _) h2
  case case7 tok st hni hno htok v rest2 hv =>
    rcases htok with rfl | rfl
    · exact absurd (List.mem_cons_self _ _) h1
    · exact absurd (List.mem_cons_self _ _) h2
  case case8 tok st hni hno htok v rest2 n hv ih =>
    rcases htok with rfl | rfl
    · exact absurd (List.mem_cons_self _ _) h1
    · exact absurd (List.mem_cons_self _ _) h2
  case case9 rest st c1 c2 c3 ih =>
    rw [parseTokens.eq_def] at h; simp at h
    exact (ih st2 h
      (fun hm => h1 (List.mem_cons_of_mem _ hm))
      (fun hm => h2 (List.mem_cons_of_mem _ hm))).trans rfl
  case case10 rest st c1 c2 c3 c4 ih =>
    rw [parseTokens.eq_def] at h; simp at h
    exact (ih st2 h
      (fun hm => h1 (List.mem_cons_of_mem _ hm))
      (fun hm => h2 (List.mem_cons_of_mem _ hm))).trans rfl
  case case11 rest st c1 c2 c3 c4 c5 ih =>
    rw [parseTokens.eq_def] at h; simp at h
    exact (ih st2 h
      (fun hm => h1 (List.mem_cons_of_mem _ hm))
      (fun hm => h2 (List.mem_cons_of_mem _ hm))).trans rfl
  case case12 tok st hni hno hnt c4 c5 c6 htok =>
    rcases htok with rfl | rfl <;>
      (rw [parseTokens.eq_def] at h; simp at h)
  case case13 tok st hni hno hnt c4 c5 c6 htok v rest2 hv =>
    rcases htok with rfl | rfl <;>
      (rw [parseTokens.eq_def] at h; simp [hv] at h)
  case case14 tok st hni hno hnt c4 c5 c6 htok v rest2 q hv ih =>
    rcases htok with rfl | rfl <;>
      (rw [parseTokens.eq_def] at h; simp [hv] at h;
       exact (ih st2 h
        (fun hm => h1 (List.mem_cons_of_mem _ (List.mem_cons_of_mem _ hm)))
        (fun hm => h2 (List.mem_cons_of_mem _ (List.mem_cons_of_mem _ hm)))).trans rfl)
  case case15 st c1 c2 c3 c4 c5 c6 c7 =>
    rw [parseTokens.eq_def] at h; simp at h
  case case16 rest2 st v c1 c2 c3 c4 c5 c6 c7 ih =>
    rw [parseTokens.eq_def] at h; simp at h
    exact (ih st2 h
      (fun hm => h1 (List.mem_cons_of_mem _ (List.mem_cons_of_mem _ hm)))
      (fun hm => h2 (List.mem_cons_of_mem _ (List.mem_cons_of_mem _ hm)))).trans rfl
  case case17 st c1 c2 c3 c4 c5 c6 c7 c8 =>
    rw [parseTokens.eq_def] at h; simp at h
  case case18 rest2 st v c1 c2 c3 c4 c5 c6 c7 c8 ih =>
    rw [parseTokens.eq_def] at h; simp at h
    exact (ih st2 h
      (fun hm => h1 (List.mem_cons_of_mem _ (List.mem_cons_of_mem _ hm)))
      (fun hm => h2 (List.mem_cons_of_mem _ (List.mem_cons_of_mem _ hm)))).trans rfl
  case case19 st c1 c2 c3 c4 c5 c6 c7 c8 c9 =>
    rw [parseTokens.eq_def] at h; simp at h
  case case20 rest2 st v c1 c2 c3 c4 c5 c6 c7 c8 c9 ih =>
    rw [parseTokens.eq_def] at h; simp at h
    exact (ih st2 h
      (fun hm => h1 (List.mem_cons_of_mem _ (List.mem_cons_of_mem _ hm)))
      (fun hm => h2 (List.mem_cons_of_mem _ (List.mem_cons_of_mem _ hm)))).trans rfl
  case case21 rest st c1 c2 c3 c4 c5 c6 c7 c8 c9 c10 ih =>
    rw [parseTokens.eq_def] at h; simp at h
    exact (ih st2 h
      (fun hm => h1 (List.mem_cons_of_mem _ hm))
      (fun hm => h2 (List.mem_cons_of_mem _ hm))).trans rfl
  case case22 =>
    rw [parseTokens.eq_def] at h
    simp_all

/-- C6: the parser marks `-i` / `--input`, `-o` / `--output` and
`-t` / `--threads` (an integer) as required — parsing succeeds only when each
was supplied — and an invocation carrying only the required arguments gets
the defaults `percent_single_copy = 100.0`,
`trimal_strategy = "automated1"`, `missing_character = "?"` and
`gene_tree_program = "fasttree"`. -/
theorem busco_c6_required_and_defaults :
    (∀ (argv : List String) (a : Args), parse_args argv = some a →
        ("-i" ∈ argv ∨ "--input" ∈ argv) ∧
        ("-o" ∈ argv ∨ "--output" ∈ argv) ∧
        ("-t" ∈ argv ∨ "--threads" ∈ argv)) ∧
    (∀ (i o t : String) (n : Int), parsePyInt t = some n →
        parse_args ["-i", i, "-o", o, "-t", t]
          = some (Args.mk i o n false false false 100 "automated1" "?" "fasttree" false)) := by
  constructor
  · intro argv a ha
    cases hpt : parseTokens argv initState with
    | none =>
      unfold parse_args at ha
      rw [hpt] at ha
      exact absurd ha (by simp)
    | some st =>
      unfold parse_args at ha
      rw [hpt] at ha
      dsimp only at ha
      refine ⟨?_, ?_, ?_⟩
      · by_contra hc
        push_neg at hc
        have hin := parseTokens_input_stable argv initState st hpt hc.1 hc.2
        rw [hin] at ha
        simp [initState] at ha
      · by_contra hc
        push_neg at hc
        have hout := parseTokens_output_stable argv initState st hpt hc.1 hc.2
        rw [hout] at ha
        simp [initState] at ha
      · by_contra hc
        push_neg at hc
        have hth := parseTokens_threads_stable argv initState st hpt hc.1 hc.2
        rw [hth] at ha
        simp [initState] at ha
  · intro i o t n hn
    simp [parse_args, parseTokens, hn, initState]

/-- C6 (witness): a concrete minimal invocation carries all three required
flags and parses to the default optional values. -/
theorem busco_c6_required_and_defaults_witness :
    (("-i" ∈ ["-i", "a", "-o", "b", "-t", "4"] ∨ "--input" ∈ ["-i", "a", "-o", "b", "-t", "4"]) ∧
     ("-o" ∈ ["-i", "a", "-o", "b", "-t", "4"] ∨ "--output" ∈ ["-i", "a", "-o", "b", "-t", "4"]) ∧
     ("-t" ∈ ["-i", "a", "-o", "b", "-t", "4"] ∨ "--threads" ∈ ["-i", "a", "-o", "b", "-t", "4"])) ∧
    parse_args ["-i", "a", "-o", "b", "-t", "4"]
      = some (Args.mk "a" "b" 4 false false false 100 "automated1" "?" "fasttree" false) :=
  ⟨busco_c6_required_and_defaults.1 ["-i", "a", "-o", "b", "-t", "4"]
      (Args.mk "a" "b" 4 false false false 100 "automated1" "?" "fasttree" false) (by decide),
   busco_c6_required_and_defaults.2 "a" "b" "4" 4 (by decide)⟩

/-- C5 (amended): the parser defines `--supermatrix_only` and
`--gene_trees_only` as two independent `store_true` switches, not as a
mutually exclusive group: any invocation with the required arguments and
both flags is accepted and proceeds with both set to true. -/
theorem busco_c5_both_flags_amended (i o t : String) (n : Int)
    (h : parsePyInt t = some n) :
    parse_args ["-i", i, "-o", o, "-t", t, "--supermatrix_only", "--gene_trees_only"]
      = some (Args.mk i o n true true false 100 "automated1" "?" "fasttree" false) := by
  simp [parse_args, parseTokens, h, initState]

/-- C5 (witness for the amended theorem): a concrete invocation with both
flags parses successfully with both set. -/
theorem busco_c5_both_flags_amended_witness :
    parsePyInt "4" = some 4 ∧
    parse_args ["-i", "genomes", "-o", "results", "-t", "4",
                "--supermatrix_only", "--gene_trees_only"]
      = some (Args.mk "genomes" "results" 4 true true false 100 "automated1" "?" "fasttree" false) :=
  ⟨by decide, busco_c5_both_flags_amended "genomes" "results" "4" 4 (by decide)⟩

/-- C3: for every threshold t in [0,100] the selected-marker set is exactly
the observed markers whose presence-fraction is at least t/100; with 3
species and a marker single-copy complete in 2 of them, threshold 60
selects it and threshold 70 does not. -/
theorem busco_c3_threshold_selection :
    (∀ (sets : List (List String)) (t : ℚ), 0 ≤ t → t ≤ 100 →
        ∀ m : String, m ∈ selectedMarkers sets t ↔
          (m ∈ observedMarkers sets ∧ t / 100 ≤ presenceFraction sets m)) ∧
    ("X" ∈ selectedMarkers [["X", "A"], ["X", "A"], ["A"]] 60 ∧
     "X" ∉ selectedMarkers [["X", "A"], ["X", "A"], ["A"]] 70) := by
  have hc : presenceCount [["X", "A"], ["X", "A"], ["A"]] "X" = 2 := by decide
  have hl : ([["X", "A"], ["X", "A"], ["A"]] : List (List String)).length = 3 := by decide
  refine ⟨?_, ?_, ?_⟩
  · intro sets t _ _ m
    simp [selectedMarkers, List.mem_filter, decide_eq_true_iff]
  · refine List.mem_filter.mpr ⟨by decide, ?_⟩
    rw [decide_eq_true_iff, presenceFraction, hc, hl]
    norm_num
  · intro hmem
    have hd := (List.mem_filter.mp hmem).2
    rw [decide_eq_true_iff, presenceFraction, hc, hl] at hd
    norm_num at hd

/-- C3 (witness): the characterisation instantiated at the 3-species
example with threshold 60. -/
theorem busco_c3_threshold_selection_witness :
    (0 : ℚ) ≤ 60 ∧ (60 : ℚ) ≤ 100 ∧
    ("X" ∈ selectedMarkers [["X", "A"], ["X", "A"], ["A"]] 60 ↔
      ("X" ∈ observedMarkers [["X", "A"], ["X", "A"], ["A"]] ∧
       (60 : ℚ) / 100 ≤ presenceFraction [["X", "A"], ["X", "A"], ["A"]] "X")) :=
  ⟨by norm_num, by norm_num,
   busco_c3_threshold_selection.1 [["X", "A"], ["X", "A"], ["A"]] 60
     (by norm_num) (by norm_num) "X"⟩

/-- C4: at threshold 100.0 a marker is selected only if it is single-copy
complete in every species, and for every threshold (0 included) a marker
present in zero species is never selected. -/
theorem busco_c4_universal_and_absent :
    (∀ (sets : List (List String)) (m : String),
        m ∈ selectedMarkers sets 100 → ∀ s ∈ sets, m ∈ s) ∧
    (∀ (sets : List (List String)) (m : String) (t : ℚ),
        presenceCount sets m = 0 → m ∉ selectedMarkers sets t) := by
  constructor
  · intro sets m hm s hs
    rw [selectedMarkers, List.mem_filter, decide_eq_true_iff] at hm
    obtain ⟨hobs, hfrac⟩ := hm
    have hn : 0 < sets.length := List.length_pos.mpr (List.ne_nil_of_mem hs)
    have hQ : (0 : ℚ) < (sets.length : ℚ) := by exact_mod_cast hn
    have h1 : (1 : ℚ) ≤ presenceFraction sets m := by
      have : (100 : ℚ) / 100 = 1 := by norm_num
      rw [this] at hfrac
      exact hfrac
    rw [presenceFraction] at h1
    have hq : (sets.length : ℚ) ≤ (presenceCount sets m : ℚ) := (one_le_div hQ).mp h1
    have hcount : sets.length ≤ presenceCount sets m := by exact_mod_cast hq
    have hle : presenceCount sets m ≤ sets.length := List.length_filter_le _ _
    have heq : presenceCount sets m = sets.length := le_antisymm hle hcount
    rw [presenceCount, ← List.countP_eq_length_filter] at heq
    have hall := List.countP_eq_length.mp heq s hs
    exact decide_eq_true_iff.mp hall
  · intro sets m t h0 hm
    rw [selectedMarkers, List.mem_filter] at hm
    obtain ⟨hobs, _⟩ := hm
    rw [observedMarkers, List.mem_dedup, List.mem_flatten] at hobs
    obtain ⟨s, hs, hms⟩ := hobs
    have hpos : 0 < presenceCount sets m := by
      rw [presenceCount]
      apply List.length_pos.mpr
      intro hnil
      have hsf : s ∈ sets.filter (fun s => decide (m ∈ s)) :=
        List.mem_filter.mpr ⟨hs, decide_eq_true hms⟩
      rw [hnil] at hsf
      exact absurd hsf (List.not_mem_nil s)
    omega

/-- C4 (witness): a marker present in both of two species is selected at
threshold 100 and is indeed in every species; a marker present in zero
species is not selected at threshold 0. -/
theorem busco_c4_universal_and_absent_witness :
    ("X" ∈ selectedMarkers [["X"], ["X"]] 100 ∧ ∀ s ∈ [["X"], ["X"]], "X" ∈ s) ∧
    (presenceCount [["Y"]] "Z" = 0 ∧ "Z" ∉ selectedMarkers [["Y"]] 0) := by
  have hc : presenceCount [["X"], ["X"]] "X" = 2 := by decide
  have hl : ([["X"], ["X"]] : List (List String)).length = 2 := by decide
  have hmem : "X" ∈ selectedMarkers [["X"], ["X"]] 100 := by
    refine List.mem_filter.mpr ⟨by decide, ?_⟩
    rw [decide_eq_true_iff, presenceFraction, hc, hl]
    norm_num
  exact ⟨⟨hmem, busco_c4_universal_and_absent.1 [["X"], ["X"]] "X" hmem⟩,
         ⟨by decide, busco_c4_universal_and_absent.2 [["Y"]] "Z" 0 (by decide)⟩⟩

/-- C7: when every trimmed alignment is rectangular (each row as wide as
the alignment), the supermatrix has one row per species, every row's length
is the sum of the trimmed alignment widths of all retained markers, and
every row is the concatenation of its marker blocks in the same fixed
marker order. -/
theorem busco_c7_supermatrix_shape (mc : Char) (alns : List TrimmedAlignment)
    (species : List String)
    (hw : ∀ a ∈ alns, ∀ p ∈ a.seqs, p.2.length = alnWidth a) :
    (supermatrix mc alns species).length = species.length ∧
    (∀ r ∈ supermatrix mc alns species, r.2.length = (alns.map alnWidth).sum) ∧
    (∀ r ∈ supermatrix mc alns species,
        r.2 = (alns.map (fun a => markerBlock mc a r.1)).flatten) := by
  have hblock : ∀ a ∈ alns, ∀ sp : String, (markerBlock mc a sp).length = alnWidth a := by
    intro a ha sp
    cases hfind : lookupSeq a sp with
    | none => simp [markerBlock, hfind]
    | some s =>
      simp only [markerBlock, hfind]
      rw [lookupSeq] at hfind
      rcases hmap : a.seqs.find? (fun p => p.1 == sp) with _ | p
      · rw [hmap] at hfind; simp at hfind
      · rw [hmap] at hfind
        simp at hfind
        rw [← hfind]
        exact hw a ha p (List.mem_of_find?_eq_some hmap)
  refine ⟨?_, ?_, ?_⟩
  · rw [supermatrix, List.length_map]
  · intro r hr
    rw [supermatrix] at hr
    obtain ⟨sp, hsp, rfl⟩ := List.mem_map.mp hr
    show (speciesRow mc alns sp).length = _
    rw [speciesRow, List.length_flatten, List.map_map]
    congr 1
    apply List.map_congr_left
    intro a ha
    exact hblock a ha sp
  · intro r hr
    rw [supermatrix] at hr
    obtain ⟨sp, hsp, rfl⟩ := List.mem_map.mp hr
    rfl

/-- C7 (witness): shape facts instantiated on a concrete one-marker,
two-species input (one species missing from the alignment). -/
theorem busco_c7_supermatrix_shape_witness :
    (supermatrix '?' [TrimmedAlignment.mk [("s1", ['A', 'B'])]] ["s1", "s2"]).length
      = (["s1", "s2"] : List String).length ∧
    ∀ r ∈ supermatrix '?' [TrimmedAlignment.mk [("s1", ['A', 'B'])]] ["s1", "s2"],
      r.2.length = ([TrimmedAlignment.mk [("s1", ['A', 'B'])]].map alnWidth).sum :=
  ⟨(busco_c7_supermatrix_shape '?' [TrimmedAlignment.mk [("s1", ['A', 'B'])]] ["s1", "s2"]
      (by decide)).1,
   (busco_c7_supermatrix_shape '?' [TrimmedAlignment.mk [("s1", ['A', 'B'])]] ["s1", "s2"]
      (by decide)).2.1⟩
